import Mathlib

/-!
Verification of the document retrieval and AI-solution-synthesis pipeline of
the `intelliops-ai-copilot` backend (Go).

Shallow embedding conventions:
* Go `float32` values are idealized as real numbers (`ℝ`); `math.Sqrt` and
  `math.Sin` become `Real.sqrt` and `Real.sin`.
* Go strings are Lean `String`s; where character-level processing matters
  (the chunker, substring search, `filepath.Ext`) we work on `List Char`.
* Network calls (OpenAI / local LLM endpoints) are modelled as oracle
  parameters of type `String → Except String α`: `.ok` is a successful call,
  `.error` is any failure (non-2xx status, transport error, parse error).
* Go slices become Lean lists; Go `int` counters that are always non-negative
  become `Nat`.
* Methods on a service struct become functions taking the service record as
  the first argument; the in-memory document store `v.documents` is the
  `documents` field of `VectorService`.
-/

set_option maxHeartbeats 1000000

namespace IntelliOps

/-- Embeds `models.DocumentChunk` (backend/models/document.go): ID, Content,
Embedding, StartPage, EndPage. -/
structure DocumentChunk where
  id : String
  content : String
  embedding : List ℝ
  startPage : Int
  endPage : Int

/-- Embeds `models.Document` (backend/models/document.go). The MongoDB object
id and the two `time.Time` stamps are not modelled; no code under
verification reads them. -/
structure Document where
  title : String
  filePath : String
  fileType : String
  content : String
  summary : String
  tags : List String
  chunks : List DocumentChunk

/-- Embeds `models.DocumentSearchResult` (backend/models/document.go). -/
structure DocumentSearchResult where
  document : Document
  chunk : DocumentChunk
  score : ℝ
  relevance : String

/-- Embeds `models.SuggestedSolution` (backend/models/document.go). -/
structure SuggestedSolution where
  title : String
  description : String
  steps : List String
  references : List String
  confidence : ℝ

/-- Embeds the fields of `models.Ticket` read by the solution synthesizer:
Title, Description, Category, Priority.  `TicketCategory` and
`TicketPriority` are string types in Go, so both are `String` here. -/
structure Ticket where
  title : String
  description : String
  category : String
  priority : String

/-- Embeds `services.VectorService` (backend/services/vector_service.go):
configuration strings plus the in-memory document store. -/
structure VectorService where
  openAIAPIKey : String
  localLLMURL : String
  provider : String
  documents : List Document

/-- Embeds `services.LLMService` (backend/services/llm_service.go). -/
structure LLMService where
  openAIAPIKey : String
  openAIModel : String
  localLLMURL : String
  provider : String

/-- Embeds `services.CosineSimilarity` (vector_service.go lines 227-245):
return 0 on length mismatch; accumulate dot product and the two squared
norms over the common indices; return 0 if either squared norm is zero;
otherwise `dot / (sqrt normA * sqrt normB)`. -/
noncomputable def CosineSimilarity (a b : List ℝ) : ℝ :=
  if a.length ≠ b.length then 0
  else
    let dotProduct := (List.zipWith (fun x y => x * y) a b).sum
    let normA := (a.map (fun x => x * x)).sum
    let normB := (b.map (fun x => x * x)).sum
    if normA = 0 ∨ normB = 0 then 0
    else dotProduct / (Real.sqrt normA * Real.sqrt normB)

lemma cosine_self_eq_one (v : List ℝ) (hv : ∃ x ∈ v, x ≠ 0) :
    CosineSimilarity v v = 1 := by
  obtain ⟨x, hxv, hx⟩ := hv
  have hsq : x * x ∈ v.map (fun y => y * y) := List.mem_map_of_mem _ hxv
  have hnonneg : ∀ y ∈ v.map (fun y => y * y), (0:ℝ) ≤ y := by
    intro y hy
    obtain ⟨z, _, rfl⟩ := List.mem_map.mp hy
    exact mul_self_nonneg z
  have hpos : 0 < (v.map (fun y => y * y)).sum :=
    lt_of_lt_of_le (mul_self_pos.mpr hx) (List.single_le_sum hnonneg _ hsq)
  simp only [CosineSimilarity, List.zipWith_same]
  rw [if_neg (by simp), if_neg (by push_neg; exact ⟨hpos.ne', hpos.ne'⟩),
    Real.mul_self_sqrt hpos.le]
  exact div_self hpos.ne'

lemma cosine_zero_vector (v : List ℝ) (n : Nat) :
    CosineSimilarity v (List.replicate n 0) = 0 := by
  by_cases h : v.length = n
  · simp [CosineSimilarity, h]
  · simp [CosineSimilarity, h]

/-- C4: for every non-zero vector `v`, `CosineSimilarity v v = 1`, and for
every vector `v`, the cosine similarity of `v` against a zero vector is `0`
(the zero-norm case is defined as 0, not an error).  Go `float32` arithmetic
is idealized as real arithmetic. -/
theorem C4_cosine_self_one_and_zero_vector :
    (∀ v : List ℝ, (∃ x ∈ v, x ≠ 0) → CosineSimilarity v v = 1) ∧
    (∀ (v : List ℝ) (n : Nat), CosineSimilarity v (List.replicate n 0) = 0) :=
  ⟨cosine_self_eq_one, cosine_zero_vector⟩

/-- Witness for C4 at `v = [3, 4]` and zero vector `[0, 0]`. -/
theorem C4_witness :
    CosineSimilarity [(3:ℝ), 4] [(3:ℝ), 4] = 1 ∧
    CosineSimilarity [(1:ℝ), 2] (List.replicate 2 0) = 0 :=
  ⟨C4_cosine_self_one_and_zero_vector.1 [3, 4] ⟨3, by simp, by norm_num⟩,
   C4_cosine_self_one_and_zero_vector.2 [1, 2] 2⟩

/-- Embeds the scan phase of `VectorService.Search` (vector_service.go lines
181-207) for one chunk: chunks with an empty embedding are skipped; the
cosine score against the query is computed; chunks scoring below `minScore`
are dropped; survivors get a relevance bucket (`"High"`, downgraded to
`"Medium"` when `score < 0.8` and to `"Low"` when `score < 0.6`). -/
noncomputable def searchScanChunk (queryEmbedding : List ℝ) (minScore : ℝ)
    (doc : Document) (chunk : DocumentChunk) : Option DocumentSearchResult :=
  if chunk.embedding.length = 0 then none
  else
    let score := CosineSimilarity queryEmbedding chunk.embedding
    if score ≥ minScore then
      some ⟨doc, chunk,
        score,
        if score < 0.6 then "Low" else if score < 0.8 then "Medium" else "High"⟩
    else none

/-- Embeds the full scan of `VectorService.Search`: every chunk of every
stored document, documents in store order, chunks in ordinal order. -/
noncomputable def searchScan (v : VectorService) (queryEmbedding : List ℝ)
    (minScore : ℝ) : List DocumentSearchResult :=
  (v.documents.map
    (fun doc => doc.chunks.filterMap (searchScanChunk queryEmbedding minScore doc))).flatten

/-- Embeds the inner loop of the sort in `VectorService.Search` (lines
210-216) for a fixed outer index `i`: the current element `x` at position
`i` is compared against each later element in turn, swapping whenever the
later element has a strictly greater score.  Returns the element left at
position `i` after the pass together with the later elements as rearranged
by the swaps. -/
noncomputable def selOne : DocumentSearchResult → List DocumentSearchResult →
    DocumentSearchResult × List DocumentSearchResult
  | x, [] => (x, [])
  | x, y :: ys =>
    if y.score > x.score then
      ((selOne y ys).1, x :: (selOne y ys).2)
    else
      ((selOne x ys).1, y :: (selOne x ys).2)

lemma selOne_snd_length (x : DocumentSearchResult)
    (l : List DocumentSearchResult) : (selOne x l).2.length = l.length := by
  induction l generalizing x with
  | nil => rfl
  | cons y ys ih =>
    simp only [selOne]
    by_cases h : y.score > x.score
    · simp [if_pos h, ih]
    · simp [if_neg h, ih]

/-- Embeds the outer loop of the sort in `VectorService.Search` (lines
210-216): a swap-based selection sort into non-increasing score order. -/
noncomputable def sortLoop : List DocumentSearchResult →
    List DocumentSearchResult
  | [] => []
  | x :: xs => (selOne x xs).1 :: sortLoop (selOne x xs).2
termination_by l => l.length
decreasing_by simp [selOne_snd_length]

/-- Embeds `VectorService.Search` (vector_service.go lines 178-224): scan,
sort by score descending, truncate to the first `topK` results.  The Go
method also returns an `error` value that is always `nil`; only the result
slice is modelled.  `topK` is the Go `int` argument, modelled as `Nat`. -/
noncomputable def Search (v : VectorService) (queryEmbedding : List ℝ)
    (topK : Nat) (minScore : ℝ) : List DocumentSearchResult :=
  (sortLoop (searchScan v queryEmbedding minScore)).take topK

lemma selOne_perm (x : DocumentSearchResult) (l : List DocumentSearchResult) :
    List.Perm ((selOne x l).1 :: (selOne x l).2) (x :: l) := by
  induction l generalizing x with
  | nil => exact List.Perm.refl _
  | cons y ys ih =>
    simp only [selOne]
    by_cases h : y.score > x.score
    · simp only [if_pos h]
      exact (List.Perm.swap x _ _).trans ((ih y).cons x)
    · simp only [if_neg h]
      exact (List.Perm.swap y _ _).trans (((ih x).cons y).trans (List.Perm.swap x y ys))

lemma selOne_max (x : DocumentSearchResult) (l : List DocumentSearchResult) :
    x.score ≤ (selOne x l).1.score ∧
      ∀ y ∈ l, y.score ≤ (selOne x l).1.score := by
  induction l generalizing x with
  | nil => exact ⟨le_refl _, by simp⟩
  | cons y ys ih =>
    simp only [selOne]
    by_cases h : y.score > x.score
    · simp only [if_pos h]
      refine ⟨le_of_lt (lt_of_lt_of_le h (ih y).1), ?_⟩
      intro z hz
      rcases List.mem_cons.mp hz with hz | hz
      · exact hz ▸ (ih y).1
      · exact (ih y).2 z hz
    · simp only [if_neg h]
      refine ⟨(ih x).1, ?_⟩
      intro z hz
      rcases List.mem_cons.mp hz with hz | hz
      · exact hz ▸ le_trans (le_of_not_lt h) (ih x).1
      · exact (ih x).2 z hz

lemma sortLoop_perm (l : List DocumentSearchResult) :
    List.Perm (sortLoop l) l := by
  induction l using sortLoop.induct with
  | case1 => rw [sortLoop]
  | case2 x xs ih =>
    rw [sortLoop]
    exact (ih.cons (selOne x xs).1).trans (selOne_perm x xs)

lemma sortLoop_sorted (l : List DocumentSearchResult) :
    (sortLoop l).Pairwise (fun a b => b.score ≤ a.score) := by
  induction l using sortLoop.induct with
  | case1 => simp [sortLoop]
  | case2 x xs ih =>
    rw [sortLoop]
    refine List.Pairwise.cons ?_ ih
    intro z hz
    have hz2 : z ∈ (selOne x xs).2 := (sortLoop_perm _).mem_iff.mp hz
    have hz3 : z ∈ (selOne x xs).1 :: (selOne x xs).2 := List.mem_cons_of_mem _ hz2
    have hz4 : z ∈ x :: xs := (selOne_perm x xs).mem_iff.mp hz3
    rcases List.mem_cons.mp hz4 with h | h
    · exact h ▸ (selOne_max x xs).1
    · exact (selOne_max x xs).2 z h

lemma mem_searchScan {v : VectorService} {q : List ℝ} {m : ℝ}
    {r : DocumentSearchResult} (hr : r ∈ searchScan v q m) :
    m ≤ r.score ∧ r.chunk.embedding.length ≠ 0 ∧
      r.score = CosineSimilarity q r.chunk.embedding := by
  simp only [searchScan, List.mem_flatten, List.mem_map] at hr
  obtain ⟨_, ⟨doc, hdoc, rfl⟩, hrin⟩ := hr
  rw [List.mem_filterMap] at hrin
  obtain ⟨c, hc, hsome⟩ := hrin
  simp only [searchScanChunk] at hsome
  split at hsome
  · exact absurd hsome (by simp)
  · split at hsome
    · rename_i hemb hge
      obtain rfl := (Option.some.injEq _ _).mp hsome
      exact ⟨hge, hemb, rfl⟩
    · exact absurd hsome (by simp)

/-- C2 (amended): for every store state, query vector, `topK` and
`minScore`, the sequence returned by `Search` is sorted by non-increasing
score.  The stability part of the original claim is false: the swap-based
selection sort is not stable (see the counterexample theorem). -/
theorem C2_search_sorted_descending (v : VectorService) (q : List ℝ)
    (topK : Nat) (minScore : ℝ) :
    (Search v q topK minScore).Pairwise (fun a b => b.score ≤ a.score) :=
  List.Pairwise.sublist (List.take_sublist topK _) (sortLoop_sorted (searchScan v q minScore))

/-- C5: every result returned by `Search` has score at least `minScore`,
and at most `topK` results are returned. -/
theorem C5_search_minScore_and_topK (v : VectorService) (q : List ℝ)
    (topK : Nat) (minScore : ℝ) :
    (Search v q topK minScore).length ≤ topK ∧
      ∀ r ∈ Search v q topK minScore, minScore ≤ r.score := by
  constructor
  · rw [Search, List.length_take]
    exact min_le_left _ _
  · intro r hr
    have h1 : r ∈ sortLoop (searchScan v q minScore) :=
      List.take_subset _ _ hr
    have h2 : r ∈ searchScan v q minScore := (sortLoop_perm _).mem_iff.mp h1
    exact (mem_searchScan h2).1

/-- C10: `CosineSimilarity` is total — any two vectors of different lengths
get similarity `0` rather than an error — and consequently, whenever
`minScore` is positive, every result of `Search` comes from a chunk whose
stored embedding has exactly the dimensionality of the query embedding:
mismatched chunks score `0` and are filtered out. -/
theorem C10_dimension_mismatch_is_harmless :
    (∀ a b : List ℝ, a.length ≠ b.length → CosineSimilarity a b = 0) ∧
    (∀ (v : VectorService) (q : List ℝ) (topK : Nat) (minScore : ℝ),
      0 < minScore → ∀ r ∈ Search v q topK minScore,
        r.chunk.embedding.length = q.length) := by
  have htot : ∀ a b : List ℝ, a.length ≠ b.length → CosineSimilarity a b = 0 := by
    intro a b hab
    simp [CosineSimilarity, hab]
  refine ⟨htot, ?_⟩
  intro v q topK minScore hpos r hr
  have h1 : r ∈ sortLoop (searchScan v q minScore) := List.take_subset _ _ hr
  have h2 : r ∈ searchScan v q minScore := (sortLoop_perm _).mem_iff.mp h1
  obtain ⟨hge, _, hsc⟩ := mem_searchScan h2
  by_contra hne
  have h0 : CosineSimilarity q r.chunk.embedding = 0 :=
    htot q r.chunk.embedding (fun h => hne h.symm)
  rw [hsc, h0] at hge
  exact absurd (lt_of_lt_of_le hpos hge) (lt_irrefl 0)

/-- Demo query vector used for concrete evaluations of `Search`. -/
noncomputable def demoQ : List ℝ := [3, 4]

/-- Demo chunk scoring `3/5` against `demoQ`. -/
noncomputable def demoChunkA : DocumentChunk := ⟨"c1", "a", [5, 0], 0, 1⟩

/-- Demo chunk scoring `3/5` against `demoQ` (tied with `demoChunkA`). -/
noncomputable def demoChunkB : DocumentChunk := ⟨"c2", "b", [10, 0], 0, 1⟩

/-- Demo chunk scoring `1` against `demoQ`. -/
noncomputable def demoChunkC : DocumentChunk := ⟨"c3", "c", [3, 4], 0, 1⟩

/-- Demo document holding the three demo chunks in scan order A, B, C. -/
noncomputable def demoDoc : Document :=
  ⟨"d", "p", ".md", "x", "s", [], [demoChunkA, demoChunkB, demoChunkC]⟩

/-- Demo store: a vector service with no provider configured and one
document. -/
noncomputable def demoService : VectorService := ⟨"", "", "", [demoDoc]⟩

lemma sqrt25 : Real.sqrt 25 = 5 := by
  rw [show (25:ℝ) = 5 ^ 2 by norm_num, Real.sqrt_sq (by norm_num : (0:ℝ) ≤ 5)]

lemma sqrt100 : Real.sqrt 100 = 10 := by
  rw [show (100:ℝ) = 10 ^ 2 by norm_num,
    Real.sqrt_sq (by norm_num : (0:ℝ) ≤ 10)]

lemma cosQA : CosineSimilarity demoQ [(5:ℝ), 0] = 3/5 := by
  simp only [CosineSimilarity, demoQ]
  norm_num [sqrt25]

lemma cosQB : CosineSimilarity demoQ [(10:ℝ), 0] = 3/5 := by
  simp only [CosineSimilarity, demoQ]
  norm_num [sqrt25, sqrt100]

lemma cosQC : CosineSimilarity demoQ [(3:ℝ), 4] = 1 := by
  simp only [CosineSimilarity, demoQ]
  norm_num [sqrt25]

/-- Demo search result for chunk A. -/
noncomputable def demoResA : DocumentSearchResult :=
  ⟨demoDoc, demoChunkA, 3/5, "Medium"⟩

/-- Demo search result for chunk B. -/
noncomputable def demoResB : DocumentSearchResult :=
  ⟨demoDoc, demoChunkB, 3/5, "Medium"⟩

/-- Demo search result for chunk C. -/
noncomputable def demoResC : DocumentSearchResult :=
  ⟨demoDoc, demoChunkC, 1, "High"⟩

lemma scanChunkA : searchScanChunk demoQ (1/2) demoDoc demoChunkA =
    some demoResA := by
  simp only [searchScanChunk, demoChunkA, demoResA, cosQA]
  norm_num

lemma scanChunkB : searchScanChunk demoQ (1/2) demoDoc demoChunkB =
    some demoResB := by
  simp only [searchScanChunk, demoChunkB, demoResB, cosQB]
  norm_num

lemma scanChunkC : searchScanChunk demoQ (1/2) demoDoc demoChunkC =
    some demoResC := by
  simp only [searchScanChunk, demoChunkC, demoResC, cosQC]
  norm_num

lemma demoDoc_chunks :
    demoDoc.chunks = [demoChunkA, demoChunkB, demoChunkC] := rfl

lemma searchScan_demo :
    searchScan demoService demoQ (1/2) = [demoResA, demoResB, demoResC] := by
  simp only [searchScan, demoService, demoDoc_chunks, List.map_cons,
    List.map_nil, List.filterMap_cons, List.filterMap_nil, scanChunkA,
    scanChunkB, scanChunkC, List.flatten_cons, List.flatten_nil,
    List.append_nil]

lemma score_demoResA : demoResA.score = 3/5 := rfl

lemma sortLoop_demo :
    sortLoop [demoResA, demoResB, demoResC] =
      [demoResC, demoResB, demoResA] := by
  have hAB : ¬ (demoResB.score > demoResA.score) := by
    simp only [demoResA, demoResB]
    norm_num
  have hAC : demoResC.score > demoResA.score := by
    simp only [demoResA, demoResC]
    norm_num
  have hBA : ¬ (demoResA.score > demoResB.score) := by
    simp only [demoResA, demoResB]
    norm_num
  have h1 : selOne demoResA [demoResB, demoResC] =
      (demoResC, [demoResB, demoResA]) := by
    simp only [selOne, if_neg hAB, if_pos hAC]
  have h2 : selOne demoResB [demoResA] = (demoResB, [demoResA]) := by
    simp only [selOne, if_neg hBA]
  have h3 : selOne demoResA ([] : List DocumentSearchResult) =
      (demoResA, []) := rfl
  rw [sortLoop, h1]
  rw [sortLoop, h2]
  rw [sortLoop, h3]
  rw [sortLoop]

lemma search_demo :
    Search demoService demoQ 10 (1/2) = [demoResC, demoResB, demoResA] := by
  rw [Search, searchScan_demo, sortLoop_demo]
  rfl

/-- Counterexample to C2 as stated: at this concrete store and query, the
chunks enter the scan in the order `c1, c2, c3`, chunks `c1` and `c2` have
equal scores, yet `Search` returns them in the order `c3, c2, c1` — the tie
`c1, c2` has been reversed relative to scan order, so the sort is not
stable. -/
theorem C2_counterexample_not_stable :
    (Search demoService demoQ 10 (1/2)).map (fun r => r.chunk.id) =
        ["c3", "c2", "c1"] ∧
      (searchScan demoService demoQ (1/2)).map (fun r => r.chunk.id) =
        ["c1", "c2", "c3"] ∧
      CosineSimilarity demoQ demoChunkA.embedding =
        CosineSimilarity demoQ demoChunkB.embedding := by
  refine ⟨?_, ?_, ?_⟩
  · rw [search_demo]
    simp [demoResA, demoResB, demoResC, demoChunkA, demoChunkB, demoChunkC]
  · rw [searchScan_demo]
    simp [demoResA, demoResB, demoResC, demoChunkA, demoChunkB, demoChunkC]
  · have ha : demoChunkA.embedding = [(5:ℝ), 0] := rfl
    have hb : demoChunkB.embedding = [(10:ℝ), 0] := rfl
    rw [ha, hb, cosQA, cosQB]

/-- Witness for C5 at the demo store: 3 results for `topK = 10`, and the
first returned result scores at least `minScore = 1/2`. -/
theorem C5_witness :
    (Search demoService demoQ 10 (1/2)).length ≤ 10 ∧
      (1:ℝ)/2 ≤ demoResC.score :=
  ⟨(C5_search_minScore_and_topK demoService demoQ 10 (1/2)).1,
   (C5_search_minScore_and_topK demoService demoQ 10 (1/2)).2 demoResC
     (by rw [search_demo]; exact List.mem_cons_self _ _)⟩

/-- Witness for C10: vectors of lengths 1 and 2 get similarity 0, and at
the demo store with positive `minScore` the first returned result's stored
embedding has the query dimensionality. -/
theorem C10_witness :
    CosineSimilarity [(1:ℝ)] [(1:ℝ), 2] = 0 ∧
      demoResC.chunk.embedding.length = demoQ.length :=
  ⟨C10_dimension_mismatch_is_harmless.1 [1] [1, 2] (by simp),
   C10_dimension_mismatch_is_harmless.2 demoService demoQ 10 (1/2)
     (by norm_num) demoResC
     (by rw [search_demo]; exact List.mem_cons_self _ _)⟩

/-- Embeds the hash accumulation step of
`VectorService.generateSimpleEmbedding` (vector_service.go lines 158-162):
`hash = (hash*31 + int(char)) % 1000000`.  The Go `int` never overflows
(the accumulator stays below 1000000 and a rune code point is below
2^21), so `Nat` arithmetic is faithful. -/
def hashStep (h : Nat) (c : Char) : Nat := (h * 31 + c.toNat) % 1000000

/-- Embeds the hash of `generateSimpleEmbedding`: fold `hashStep` over the
runes of the text starting from 0. -/
def textHash (text : String) : Nat := text.data.foldl hashStep 0

/-- Embeds `VectorService.generateSimpleEmbedding` (vector_service.go lines
154-170): a 384-dimensional vector whose `i`-th entry is
`sin(i + hash) * 0.1`. -/
noncomputable def generateSimpleEmbedding (text : String) : List ℝ :=
  (List.range 384).map (fun i => Real.sin ((i + textHash text : Nat) : ℝ) * 0.1)

/-- Embeds `VectorService.GenerateEmbedding` (vector_service.go lines
32-64).  The two network-backed providers (`generateOpenAIEmbedding`,
`generateLocalEmbedding`) are oracle parameters; any provider failure falls
back to `generateSimpleEmbedding`, as does the unconfigured case.  The Go
result pair `([]float32, error)` is modelled as `List ℝ × Option String`;
the error component is what the Go function returns as `error`. -/
noncomputable def GenerateEmbedding (v : VectorService)
    (openAICall localCall : String → Except String (List ℝ))
    (text : String) : List ℝ × Option String :=
  if v.provider = "openai" ∧ v.openAIAPIKey ≠ "" then
    match openAICall text with
    | .error _ => (generateSimpleEmbedding text, none)
    | .ok embedding => (embedding, none)
  else if v.provider = "local" ∧ v.localLLMURL ≠ "" then
    match localCall text with
    | .error _ => (generateSimpleEmbedding text, none)
    | .ok embedding => (embedding, none)
  else (generateSimpleEmbedding text, none)

/-- States that no embedding/generation provider is configured on the
vector service: neither the OpenAI branch nor the local branch of
`GenerateEmbedding` is taken. -/
def noProviderConfigured (v : VectorService) : Prop :=
  ¬ (v.provider = "openai" ∧ v.openAIAPIKey ≠ "") ∧
    ¬ (v.provider = "local" ∧ v.localLLMURL ≠ "")

lemma generateSimpleEmbedding_length (text : String) :
    (generateSimpleEmbedding text).length = 384 := by
  unfold generateSimpleEmbedding
  rw [List.length_map, List.length_range]

lemma generateEmbedding_error_none (v : VectorService)
    (openAICall localCall : String → Except String (List ℝ))
    (text : String) :
    (GenerateEmbedding v openAICall localCall text).2 = none := by
  rw [GenerateEmbedding]
  split
  · cases openAICall text <;> rfl
  · split
    · cases localCall text <;> rfl
    · rfl

lemma generateEmbedding_fallback (v : VectorService)
    (openAICall localCall : String → Except String (List ℝ))
    (text : String) (hnp : noProviderConfigured v) :
    GenerateEmbedding v openAICall localCall text =
      (generateSimpleEmbedding text, none) := by
  rw [GenerateEmbedding, if_neg hnp.1, if_neg hnp.2]

/-- C3: `GenerateEmbedding` never fails observably — the returned error is
always `nil` for every configuration and every provider outcome — and when
no provider is configured the result is the deterministic hash-based
fallback vector, which has exactly 384 dimensions. -/
theorem C3_generateEmbedding_total_and_384 (v : VectorService)
    (openAICall localCall : String → Except String (List ℝ))
    (text : String) :
    (GenerateEmbedding v openAICall localCall text).2 = none ∧
      (noProviderConfigured v →
        (GenerateEmbedding v openAICall localCall text).1 =
            generateSimpleEmbedding text ∧
          (GenerateEmbedding v openAICall localCall text).1.length = 384) := by
  refine ⟨generateEmbedding_error_none v openAICall localCall text, ?_⟩
  intro hnp
  rw [generateEmbedding_fallback v openAICall localCall text hnp]
  exact ⟨rfl, generateSimpleEmbedding_length text⟩

/-- Witness for C3 at a service with provider `""` and always-failing
oracles. -/
theorem C3_witness :
    (GenerateEmbedding ⟨"", "", "", []⟩ (fun _ => .error "down")
        (fun _ => .error "down") "hello").2 = none ∧
      (GenerateEmbedding ⟨"", "", "", []⟩ (fun _ => .error "down")
          (fun _ => .error "down") "hello").1.length = 384 := by
  have h := C3_generateEmbedding_total_and_384 ⟨"", "", "", []⟩
    (fun _ => .error "down") (fun _ => .error "down") "hello"
  exact ⟨h.1, (h.2 (by simp [noProviderConfigured])).2⟩

/-- C8: with no provider configured, the embedding returned by
`GenerateEmbedding` is a deterministic function of the text alone: any two
services with no provider configured and any two oracle environments give
bit-identical results on the same text. -/
theorem C8_fallback_deterministic (v1 v2 : VectorService)
    (o1 l1 o2 l2 : String → Except String (List ℝ)) (text : String)
    (h1 : noProviderConfigured v1) (h2 : noProviderConfigured v2) :
    GenerateEmbedding v1 o1 l1 text = GenerateEmbedding v2 o2 l2 text := by
  rw [generateEmbedding_fallback v1 o1 l1 text h1,
    generateEmbedding_fallback v2 o2 l2 text h2]

/-- Witness for C8: two differently configured provider-less services with
different oracles agree on `"hello"`. -/
theorem C8_witness :
    GenerateEmbedding ⟨"", "", "", []⟩ (fun _ => .error "a")
        (fun _ => .error "b") "hello" =
      GenerateEmbedding ⟨"key", "url", "none", []⟩ (fun _ => .ok [1])
        (fun _ => .ok [2]) "hello" :=
  C8_fallback_deterministic ⟨"", "", "", []⟩ ⟨"key", "url", "none", []⟩
    (fun _ => .error "a") (fun _ => .error "b") (fun _ => .ok [1])
    (fun _ => .ok [2]) "hello" (by simp [noProviderConfigured])
    (by simp [noProviderConfigured])

/-- Embeds `calculateConfidence` (backend/handlers/document.go lines
262-273): 0 for an empty result list, otherwise the running total of the
scores divided by the number of results. -/
noncomputable def calculateConfidence
    (results : List DocumentSearchResult) : ℝ :=
  if results.length = 0 then 0
  else (results.foldl (fun total r => total + r.score) 0) / results.length

lemma foldl_add_eq_sum (l : List ℝ) (a : ℝ) :
    l.foldl (fun x y => x + y) a = a + l.sum := by
  induction l generalizing a with
  | nil => simp
  | cons b bs ih =>
    rw [List.foldl_cons, List.sum_cons, ih]
    ring

/-- C7: `calculateConfidence` equals the arithmetic mean of the scores (and
0 for the empty list, which the mean formula also gives since division by
zero is 0 in `ℝ`). -/
theorem C7_confidence_is_mean (results : List DocumentSearchResult) :
    calculateConfidence results =
      (results.map (fun r => r.score)).sum / results.length := by
  rcases results with _ | ⟨r, rs⟩
  · simp [calculateConfidence]
  · rw [calculateConfidence, if_neg (by simp)]
    rw [← List.foldl_map (fun x : DocumentSearchResult => x.score)
      (fun x y => x + y) (r :: rs) (0:ℝ)]
    rw [foldl_add_eq_sum, zero_add]

/-- Helper for substring search: does the second list start with the first?
Models the character-by-character comparison underlying Go
`strings.Contains`. -/
def leadsWith : List Char → List Char → Bool
  | [], _ => true
  | _ :: _, [] => false
  | a :: as, b :: bs => a == b && leadsWith as bs

/-- Does `sub` occur as a contiguous run inside the list? -/
def hasSub (sub : List Char) : List Char → Bool
  | [] => leadsWith sub []
  | c :: rest => leadsWith sub (c :: rest) || hasSub sub rest

/-- Embeds Go `strings.Contains(s, sub)`. -/
def strContains (s sub : String) : Bool := hasSub sub.data s.data

/-- Embeds Go `strings.ToLower` (the categories involved are ASCII, where
`Char.toLower` agrees with Go). -/
def strToLower (s : String) : String := s.map Char.toLower

/-- Embeds the `docRefs` accumulation loop of
`LLMService.generateMockSolutions` (llm_service.go lines 234-239): walk the
search results, appending each document title while fewer than 3 references
have been collected. -/
def docRefs (docResults : List DocumentSearchResult) : List String :=
  docResults.foldl
    (fun acc r => if acc.length < 3 then acc ++ [r.document.title] else acc) []

lemma docRefs_loop (rs : List DocumentSearchResult) :
    ∀ acc : List String, acc.length ≤ 3 →
      rs.foldl
          (fun acc r =>
            if acc.length < 3 then acc ++ [r.document.title] else acc) acc =
        acc ++ (rs.take (3 - acc.length)).map (fun r => r.document.title) := by
  induction rs with
  | nil =>
    intro acc _
    simp
  | cons r rs ih =>
    intro acc hacc
    rw [List.foldl_cons]
    by_cases h : acc.length < 3
    · rw [if_pos h]
      rw [ih (acc ++ [r.document.title]) (by simp; omega)]
      have h3 : 3 - acc.length = (3 - (acc.length + 1)) + 1 := by omega
      rw [h3, List.take_succ_cons, List.map_cons]
      simp [List.append_assoc]
    · rw [if_neg h]
      have h3 : acc.length = 3 := by omega
      rw [ih acc hacc]
      simp [h3]

lemma docRefs_eq (rs : List DocumentSearchResult) :
    docRefs rs = (rs.take 3).map (fun r => r.document.title) := by
  rw [docRefs, docRefs_loop rs [] (by simp)]
  simp

/-- Embeds the first mock network solution (llm_service.go lines 245-258).
The quoting inside the step strings is elided. -/
def networkSol1 (refs : List String) : SuggestedSolution :=
  ⟨"Check Network Configuration and Connectivity",
   "Verify network settings and test connectivity to diagnose the issue",
   ["Open Network Settings or Control Panel > Network and Sharing Center",
    "Check IP configuration using ipconfig /all (Windows) or ifconfig (Linux/Mac)",
    "Verify DNS settings - should point to valid DNS servers",
    "Test connectivity with ping 8.8.8.8 to check internet access",
    "Test name resolution with nslookup google.com",
    "If issues persist, restart the network adapter or router"],
   refs, 0.85⟩

/-- Embeds the second mock network solution (llm_service.go lines 260-272). -/
def networkSol2 (refs : List String) : SuggestedSolution :=
  ⟨"Update Network Drivers",
   "Ensure network drivers are up to date",
   ["Open Device Manager (Windows) or System Settings (Mac/Linux)",
    "Locate Network Adapters section",
    "Right-click on your network adapter and select Update Driver",
    "Choose Search automatically for updated driver software",
    "Restart the computer after driver update"],
   refs, 0.78⟩

/-- Embeds the mock hardware solution (llm_service.go lines 274-287). -/
def hardwareSol (refs : List String) : SuggestedSolution :=
  ⟨"Hardware Diagnostics and Troubleshooting",
   "Perform hardware diagnostics to identify the faulty component",
   ["Check all physical connections (power cables, data cables, peripherals)",
    "Run built-in hardware diagnostics (F12 on boot for most systems)",
    "Check Device Manager for any hardware with warning symbols",
    "Monitor system temperatures and fan speeds",
    "Test with known-good replacement parts if available",
    "Document error codes or beep patterns for further diagnosis"],
   refs, 0.80⟩

/-- Embeds the first mock software solution (llm_service.go lines 289-302). -/
def softwareSol1 (refs : List String) : SuggestedSolution :=
  ⟨"Software Installation and Configuration",
   "Troubleshoot software installation or configuration issues",
   ["Verify system meets minimum software requirements",
    "Run installer as Administrator (Windows) or with sudo (Linux)",
    "Disable antivirus temporarily during installation",
    "Check for conflicting software or previous versions",
    "Review installation logs for specific error messages",
    "Try clean installation after removing previous version completely"],
   refs, 0.82⟩

/-- Embeds the second mock software solution (llm_service.go lines 304-317). -/
def softwareSol2 (refs : List String) : SuggestedSolution :=
  ⟨"Application Troubleshooting",
   "Resolve application crashes or performance issues",
   ["Clear application cache and temporary files",
    "Reset application settings to default",
    "Update application to the latest version",
    "Check Event Viewer (Windows) or system logs for error details",
    "Reinstall the application if issues persist",
    "Contact vendor support with error logs if needed"],
   refs, 0.75⟩

/-- Embeds the generic mock solution (llm_service.go lines 320-334). -/
def genericSol (refs : List String) : SuggestedSolution :=
  ⟨"General Troubleshooting Steps",
   "Standard troubleshooting approach for IT issues",
   ["Restart the affected device or application",
    "Check for recent system or software updates",
    "Review system logs and error messages",
    "Verify user permissions and access rights",
    "Test in a different user account or safe mode",
    "Document all symptoms and steps taken",
    "Escalate to specialized support if issue persists"],
   refs, 0.70⟩

/-- Embeds `LLMService.generateMockSolutions` (llm_service.go lines
229-343): collect up to three document-title references, branch on the
lowercased ticket category (`network` / `hardware` / `software` / generic),
and truncate to at most 3 solutions. -/
def generateMockSolutions (ticket : Ticket)
    (docResults : List DocumentSearchResult) : List SuggestedSolution :=
  let refs := docRefs docResults
  let category := strToLower ticket.category
  let solutions :=
    if strContains category "network" then
      [networkSol1 refs, networkSol2 refs]
    else if strContains category "hardware" then
      [hardwareSol refs]
    else if strContains category "software" then
      [softwareSol1 refs, softwareSol2 refs]
    else
      [genericSol refs]
  if solutions.length > 3 then solutions.take 3 else solutions

/-- Embeds the grounding-context construction of
`LLMService.GenerateSolutions` (llm_service.go lines 34-41).  The per-result
index number and the formatted relevance score are elided — no property
depends on the prompt text. -/
def buildContext (docResults : List DocumentSearchResult) : String :=
  docResults.foldl
    (fun acc r =>
      acc ++ "Document: " ++ r.document.title ++ "\nContent: " ++
        r.chunk.content ++ "\n\n")
    "Relevant Documentation:\n\n"

/-- Embeds the prompt construction of `LLMService.GenerateSolutions`
(llm_service.go lines 43-70). -/
def buildPrompt (ticket : Ticket)
    (docResults : List DocumentSearchResult) : String :=
  "Ticket Information: Title: " ++ ticket.title ++ " Description: " ++
    ticket.description ++ " Category: " ++ ticket.category ++
    " Priority: " ++ ticket.priority ++ " " ++ buildContext docResults

/-- Embeds `LLMService.GenerateSolutions` (llm_service.go lines 31-101).
The two generative backends (`callOpenAI`, `callLocalLLM`) are oracle
parameters; any failure of the configured backend, and the unconfigured
case, fall back to `generateMockSolutions` with a `nil` error.  The Go
result pair `([]SuggestedSolution, error)` is `List SuggestedSolution ×
Option String`. -/
def GenerateSolutions (l : LLMService)
    (callOpenAI callLocalLLM : String → Except String (List SuggestedSolution))
    (ticket : Ticket) (docResults : List DocumentSearchResult) :
    List SuggestedSolution × Option String :=
  if l.provider = "openai" ∧ l.openAIAPIKey ≠ "" then
    match callOpenAI (buildPrompt ticket docResults) with
    | .error _ => (generateMockSolutions ticket docResults, none)
    | .ok solutions => (solutions, none)
  else if l.provider = "local" ∧ l.localLLMURL ≠ "" then
    match callLocalLLM (buildPrompt ticket docResults) with
    | .error _ => (generateMockSolutions ticket docResults, none)
    | .ok solutions => (solutions, none)
  else (generateMockSolutions ticket docResults, none)

lemma generateSolutions_fallback (l : LLMService)
    (callOpenAI callLocalLLM : String → Except String (List SuggestedSolution))
    (ticket : Ticket) (docResults : List DocumentSearchResult)
    (hOpenAI : l.provider = "openai" ∧ l.openAIAPIKey ≠ "" →
      ∃ e, callOpenAI (buildPrompt ticket docResults) = .error e)
    (hLocal : l.provider = "local" ∧ l.localLLMURL ≠ "" →
      ∃ e, callLocalLLM (buildPrompt ticket docResults) = .error e) :
    GenerateSolutions l callOpenAI callLocalLLM ticket docResults =
      (generateMockSolutions ticket docResults, none) := by
  rw [GenerateSolutions]
  by_cases h1 : l.provider = "openai" ∧ l.openAIAPIKey ≠ ""
  · rw [if_pos h1]
    obtain ⟨e, he⟩ := hOpenAI h1
    rw [he]
  · rw [if_neg h1]
    by_cases h2 : l.provider = "local" ∧ l.localLLMURL ≠ ""
    · rw [if_pos h2]
      obtain ⟨e, he⟩ := hLocal h2
      rw [he]
    · rw [if_neg h2]

lemma mock_length (ticket : Ticket) (docResults : List DocumentSearchResult) :
    1 ≤ (generateMockSolutions ticket docResults).length ∧
      (generateMockSolutions ticket docResults).length ≤ 3 := by
  by_cases hn : strContains (strToLower ticket.category) "network" = true
  · simp [generateMockSolutions, hn]
  · by_cases hh : strContains (strToLower ticket.category) "hardware" = true
    · simp [generateMockSolutions, hn, hh]
    · by_cases hw : strContains (strToLower ticket.category) "software" = true
      · simp [generateMockSolutions, hn, hh, hw]
      · simp [generateMockSolutions, hn, hh, hw]

lemma mock_references (ticket : Ticket)
    (docResults : List DocumentSearchResult) :
    ∀ s ∈ generateMockSolutions ticket docResults,
      s.references = docRefs docResults := by
  intro s hs
  by_cases hn : strContains (strToLower ticket.category) "network" = true
  · simp [generateMockSolutions, hn] at hs
    rcases hs with rfl | rfl <;> rfl
  · by_cases hh : strContains (strToLower ticket.category) "hardware" = true
    · simp [generateMockSolutions, hn, hh] at hs
      subst hs
      rfl
    · by_cases hw : strContains (strToLower ticket.category) "software" = true
      · simp [generateMockSolutions, hn, hh, hw] at hs
        rcases hs with rfl | rfl <;> rfl
      · simp [generateMockSolutions, hn, hh, hw] at hs
        subst hs
        rfl

/-- C1: whenever no generative provider is configured, or the configured
provider call fails, `GenerateSolutions` returns a `nil` error together
with between 1 and 3 mock solutions, and every returned solution's
reference list is exactly the titles of the first (at most three) retrieved
documents. -/
theorem C1_fallback_solutions (l : LLMService)
    (callOpenAI callLocalLLM : String → Except String (List SuggestedSolution))
    (ticket : Ticket) (docResults : List DocumentSearchResult)
    (hOpenAI : l.provider = "openai" ∧ l.openAIAPIKey ≠ "" →
      ∃ e, callOpenAI (buildPrompt ticket docResults) = .error e)
    (hLocal : l.provider = "local" ∧ l.localLLMURL ≠ "" →
      ∃ e, callLocalLLM (buildPrompt ticket docResults) = .error e) :
    (GenerateSolutions l callOpenAI callLocalLLM ticket docResults).2 =
        none ∧
      1 ≤ (GenerateSolutions l callOpenAI callLocalLLM ticket
        docResults).1.length ∧
      (GenerateSolutions l callOpenAI callLocalLLM ticket
        docResults).1.length ≤ 3 ∧
      ∀ s ∈ (GenerateSolutions l callOpenAI callLocalLLM ticket
          docResults).1,
        s.references =
          (docResults.take 3).map (fun r => r.document.title) := by
  rw [generateSolutions_fallback l callOpenAI callLocalLLM ticket docResults
    hOpenAI hLocal]
  refine ⟨rfl, (mock_length ticket docResults).1,
    (mock_length ticket docResults).2, ?_⟩
  intro s hs
  rw [← docRefs_eq]
  exact mock_references ticket docResults s hs

/-- Witness for C1 at a service with no provider configured, failing
oracles, and a network-category ticket with no retrieved documents. -/
theorem C1_witness :
    (GenerateSolutions ⟨"", "", "", ""⟩ (fun _ => .error "down")
        (fun _ => .error "down")
        ⟨"wifi down", "no internet", "Network Issue", "high"⟩ []).2 = none ∧
      1 ≤ (GenerateSolutions ⟨"", "", "", ""⟩ (fun _ => .error "down")
        (fun _ => .error "down")
        ⟨"wifi down", "no internet", "Network Issue", "high"⟩ []).1.length ∧
      (GenerateSolutions ⟨"", "", "", ""⟩ (fun _ => .error "down")
        (fun _ => .error "down")
        ⟨"wifi down", "no internet", "Network Issue", "high"⟩
        []).1.length ≤ 3 := by
  have h := C1_fallback_solutions ⟨"", "", "", ""⟩ (fun _ => .error "down")
    (fun _ => .error "down")
    ⟨"wifi down", "no internet", "Network Issue", "high"⟩ []
    (by simp) (by simp)
  exact ⟨h.1, h.2.1, h.2.2.1⟩

/-- Embeds Go `strings.Split(content, "\n\n")` specialized to the
two-newline separator: leftmost-first, non-overlapping splitting.  The
empty string splits into one empty part, as in Go. -/
def splitSS : List Char → List (List Char)
  | [] => [[]]
  | '\n' :: '\n' :: rest => [] :: splitSS rest
  | c :: rest =>
    match splitSS rest with
    | [] => [[c]]
    | p :: ps => (c :: p) :: ps

/-- Embeds Go `strings.TrimSpace`: drop leading and trailing whitespace.
Lean `Char.isWhitespace` covers space, tab, carriage return and newline —
the whitespace actually occurring in the repository documents — while Go
`unicode.IsSpace` also covers rarer Unicode space characters. -/
def trimSpace (l : List Char) : List Char :=
  ((l.dropWhile (fun c => c.isWhitespace)).reverse.dropWhile
    (fun c => c.isWhitespace)).reverse

/-- Embeds `len(strings.Fields(para))`: number of maximal whitespace-free
runs.  The boolean flag records whether the previous character was inside a
word. -/
def fieldsCnt : List Char → Bool → Nat
  | [], _ => 0
  | c :: rest, inWord =>
    if c.isWhitespace then fieldsCnt rest false
    else if inWord then fieldsCnt rest true
    else 1 + fieldsCnt rest true

/-- Embeds the paragraph-accumulation loop of
`DocumentService.chunkContent` (document_service.go lines 108-125): skip
paragraphs that trim to empty; flush the buffer into a new chunk when
adding the paragraph would exceed `maxTokens` and the buffer is non-empty;
append the trimmed paragraph plus a blank line to the buffer.  Arguments
after the paragraph list are the accumulated chunks, the current buffer and
the current token count; returns the final chunks and buffer. -/
def chunkLoop (maxTokens : Nat) :
    List (List Char) → List (List Char) → List Char → Nat →
      List (List Char) × List Char
  | [], chunks, buf, _ => (chunks, buf)
  | p :: ps, chunks, buf, tokens =>
    let para := trimSpace p
    if para = [] then chunkLoop maxTokens ps chunks buf tokens
    else
      let paraTokens := fieldsCnt para false
      if tokens + paraTokens > maxTokens ∧ buf ≠ [] then
        chunkLoop maxTokens ps (chunks ++ [buf])
          (para ++ ['\n', '\n']) paraTokens
      else
        chunkLoop maxTokens ps chunks (buf ++ para ++ ['\n', '\n'])
          (tokens + paraTokens)

/-- Embeds `DocumentService.chunkContent` (document_service.go lines
101-137): split on blank lines, run the accumulation loop, flush a
non-empty final buffer, and fall back to the whole content as a single
chunk when no chunk was produced and the content is non-empty. -/
def chunkContent (content : List Char) (maxTokens : Nat) :
    List (List Char) :=
  let res := chunkLoop maxTokens (splitSS content) [] [] 0
  let chunks := if res.2 ≠ [] then res.1 ++ [res.2] else res.1
  if chunks = [] ∧ content ≠ [] then [content] else chunks

lemma dropWhile_head_false (p : Char → Bool) :
    ∀ (l : List Char) (c : Char) (t : List Char),
      l.dropWhile p = c :: t → p c = false := by
  intro l
  induction l with
  | nil =>
    intro c t h
    simp [List.dropWhile] at h
  | cons a as ih =>
    intro c t h
    rw [List.dropWhile_cons] at h
    by_cases hp : p a = true
    · rw [if_pos hp] at h
      exact ih c t h
    · rw [if_neg hp] at h
      cases h
      simpa using hp

lemma trimSpace_has_nonws (p : List Char) (h : trimSpace p ≠ []) :
    ∃ c ∈ trimSpace p, c.isWhitespace = false := by
  rw [trimSpace] at h ⊢
  have hinner : List.dropWhile (fun c => c.isWhitespace)
      (p.dropWhile (fun c => c.isWhitespace)).reverse ≠ [] := by
    intro hnil
    rw [hnil] at h
    exact h rfl
  obtain ⟨c, t, hct⟩ := List.exists_cons_of_ne_nil hinner
  refine ⟨c, ?_, dropWhile_head_false _ _ c t hct⟩
  rw [List.mem_reverse, hct]
  exact List.mem_cons_self c t

lemma chunkLoop_invariant (mt : Nat) (ps : List (List Char)) :
    ∀ (chunks : List (List Char)) (buf : List Char) (tokens : Nat),
      (∀ ch ∈ chunks, ch ≠ [] ∧ ∃ c ∈ ch, c.isWhitespace = false) →
      (buf ≠ [] → ∃ c ∈ buf, c.isWhitespace = false) →
      (∀ ch ∈ (chunkLoop mt ps chunks buf tokens).1,
          ch ≠ [] ∧ ∃ c ∈ ch, c.isWhitespace = false) ∧
        ((chunkLoop mt ps chunks buf tokens).2 ≠ [] →
          ∃ c ∈ (chunkLoop mt ps chunks buf tokens).2,
            c.isWhitespace = false) := by
  induction ps with
  | nil =>
    intro chunks buf tokens hchunks hbuf
    exact ⟨hchunks, hbuf⟩
  | cons p ps ih =>
    intro chunks buf tokens hchunks hbuf
    rw [chunkLoop]
    by_cases hpara : trimSpace p = []
    · rw [if_pos hpara]
      exact ih chunks buf tokens hchunks hbuf
    · rw [if_neg hpara]
      obtain ⟨c, hc, hcw⟩ := trimSpace_has_nonws p hpara
      by_cases hflush : tokens + fieldsCnt (trimSpace p) false > mt ∧ buf ≠ []
      · rw [if_pos hflush]
        refine ih _ _ _ ?_ ?_
        · intro ch hch
          rcases List.mem_append.mp hch with hch | hch
          · exact hchunks ch hch
          · have hcb : ch = buf := by simpa using hch
            exact hcb ▸ ⟨hflush.2, hbuf hflush.2⟩
        · intro _
          exact ⟨c, List.mem_append.mpr (Or.inl hc), hcw⟩
      · rw [if_neg hflush]
        refine ih _ _ _ hchunks ?_
        intro _
        exact ⟨c, by
          rw [List.append_assoc]
          exact List.mem_append.mpr (Or.inr (List.mem_append.mpr (Or.inl hc))), hcw⟩

lemma chunkContent_mem (content : List Char) (mt : Nat) :
    ∀ ch ∈ chunkContent content mt,
      ch ≠ [] ∧ (ch = content ∨ ∃ c ∈ ch, c.isWhitespace = false) := by
  intro ch hch
  have hinv := chunkLoop_invariant mt (splitSS content) [] [] 0
    (by simp) (by simp)
  simp only [chunkContent] at hch
  generalize hG : chunkLoop mt (splitSS content) [] [] 0 = L at hch hinv
  generalize hC : (if L.2 ≠ [] then L.1 ++ [L.2] else L.1) = C at hch
  by_cases hfb : C = [] ∧ content ≠ []
  · rw [if_pos hfb] at hch
    have hcc : ch = content := by simpa using hch
    exact ⟨hcc ▸ hfb.2, Or.inl hcc⟩
  · rw [if_neg hfb] at hch
    by_cases h2 : L.2 = []
    · rw [if_neg (fun hx => hx h2)] at hC
      rw [← hC] at hch
      exact ⟨(hinv.1 ch hch).1, Or.inr (hinv.1 ch hch).2⟩
    · rw [if_pos h2] at hC
      rw [← hC] at hch
      rcases List.mem_append.mp hch with h | h
      · exact ⟨(hinv.1 ch h).1, Or.inr (hinv.1 ch h).2⟩
      · have hcb : ch = L.2 := by simpa using h
        exact ⟨hcb ▸ h2, Or.inr (hcb ▸ hinv.2 h2)⟩

lemma chunkContent_ne_nil (content : List Char) (mt : Nat)
    (h : content ≠ []) : chunkContent content mt ≠ [] := by
  simp only [chunkContent]
  generalize hG : chunkLoop mt (splitSS content) [] [] 0 = L
  generalize hC : (if L.2 ≠ [] then L.1 ++ [L.2] else L.1) = C
  by_cases hfb : C = [] ∧ content ≠ []
  · rw [if_pos hfb]
    simp
  · rw [if_neg hfb]
    intro hnil
    exact hfb ⟨hnil, h⟩

/-- C6 (amended): the chunker returns no chunk for empty input and at least
one chunk for non-empty input; every returned chunk is a non-empty string;
and provided the input contains at least one non-whitespace character, no
returned chunk is whitespace-only.  The unconditional form of the last
part in the original claim is false: a whitespace-only non-empty input
reaches the final fallback and is returned as a single whitespace-only
chunk (see the counterexample theorem). -/
theorem C6_chunker_amended (content : List Char) (mt : Nat) :
    (content = [] → chunkContent content mt = []) ∧
      (content ≠ [] → chunkContent content mt ≠ []) ∧
      (∀ ch ∈ chunkContent content mt, ch ≠ []) ∧
      ((∃ c ∈ content, c.isWhitespace = false) →
        ∀ ch ∈ chunkContent content mt,
          ∃ c ∈ ch, c.isWhitespace = false) := by
  refine ⟨?_, chunkContent_ne_nil content mt, ?_, ?_⟩
  · intro hc
    subst hc
    rfl
  · intro ch hch
    exact (chunkContent_mem content mt ch hch).1
  · intro hcontent ch hch
    rcases (chunkContent_mem content mt ch hch).2 with hcc | hex
    · exact hcc ▸ hcontent
    · exact hex

/-- Counterexample to C6 as stated: the single-space input is non-empty,
yet the returned chunk list is exactly the whitespace-only chunk
consisting of that space — the claim that no returned chunk is
whitespace-only fails. -/
theorem C6_counterexample_whitespace_chunk :
    chunkContent [' '] 500 = [[' ']] ∧ (' ').isWhitespace = true :=
  ⟨rfl, rfl⟩

/-- Witness for C6 at the one-character input `"a"` with bound 500. -/
theorem C6_witness : chunkContent ['a'] 500 ≠ [] :=
  (C6_chunker_amended ['a'] 500).2.1 (by simp)

/-- Helper for `filepath.Ext`: scan a reversed path, accumulating characters
until the first dot (the last dot of the original string); give up at a path
separator or at the start of the string. -/
def extRev : List Char → List Char → List Char
  | [], _ => []
  | c :: rest, acc =>
    if c = '.' then '.' :: acc
    else if c = '/' then []
    else extRev rest (c :: acc)

/-- Embeds Go `filepath.Ext(path)`: the suffix starting at the final dot in
the final path element, empty when there is no dot. -/
def filepathExt (path : List Char) : List Char := extRev path.reverse []

/-- One entry seen by `filepath.Walk`: a path and whether it is a
directory. -/
structure WalkEntry where
  path : List Char
  isDir : Bool

/-- States that the walk entry has one of the supported lowercased
extensions `.pdf`, `.md`, `.txt` (handlers/document.go lines 71-72). -/
def supportedExt (path : List Char) : Prop :=
  (filepathExt path).map Char.toLower = ".pdf".data ∨
    (filepathExt path).map Char.toLower = ".md".data ∨
    (filepathExt path).map Char.toLower = ".txt".data

instance (path : List Char) : Decidable (supportedExt path) := by
  unfold supportedExt
  infer_instance

/-- Embeds the `filepath.Walk` callback loop of
`DocumentHandler.IndexDocuments` (handlers/document.go lines 57-86):
directories are skipped; files with a supported extension are processed by
`DocumentService.ProcessDocument` (the oracle `proc`, which performs file
reads); a processing error is appended to the warning list and the walk
continues; a processed document is stored in the vector service and
collected.  Arguments after the entry list are the accumulated documents,
warnings and the vector store contents; returns their final values. -/
def indexWalk (proc : List Char → Except (List Char) Document) :
    List WalkEntry → List Document → List (List Char) → List Document →
      List Document × List (List Char) × List Document
  | [], docs, warns, store => (docs, warns, store)
  | e :: es, docs, warns, store =>
    if e.isDir then indexWalk proc es docs warns store
    else if supportedExt e.path then
      match proc e.path with
      | .error msg =>
        indexWalk proc es docs
          (warns ++ ["Error processing ".data ++ e.path ++ ": ".data ++ msg])
          store
      | .ok doc => indexWalk proc es (docs ++ [doc]) warns (store ++ [doc])
    else indexWalk proc es docs warns store

/-- Documents that the spec says a batch ingestion must return: for each
non-directory entry with a supported extension whose processing succeeds,
its document, in walk order. -/
def specIndexedDocs (proc : List Char → Except (List Char) Document)
    (entries : List WalkEntry) : List Document :=
  entries.filterMap (fun e =>
    if e.isDir then none
    else if supportedExt e.path then
      match proc e.path with
      | .error _ => none
      | .ok doc => some doc
    else none)

/-- Warnings that the spec says a batch ingestion must return: one per
supported file whose processing fails, in walk order. -/
def specWarnings (proc : List Char → Except (List Char) Document)
    (entries : List WalkEntry) : List (List Char) :=
  entries.filterMap (fun e =>
    if e.isDir then none
    else if supportedExt e.path then
      match proc e.path with
      | .error msg =>
        some ("Error processing ".data ++ e.path ++ ": ".data ++ msg)
      | .ok _ => none
    else none)

lemma indexWalk_acc (proc : List Char → Except (List Char) Document)
    (entries : List WalkEntry) :
    ∀ (docs : List Document) (warns : List (List Char))
      (store : List Document),
      indexWalk proc entries docs warns store =
        (docs ++ specIndexedDocs proc entries,
          warns ++ specWarnings proc entries,
          store ++ specIndexedDocs proc entries) := by
  induction entries with
  | nil =>
    intro docs warns store
    simp [indexWalk, specIndexedDocs, specWarnings]
  | cons e es ih =>
    intro docs warns store
    rw [indexWalk]
    by_cases hd : e.isDir = true
    · rw [if_pos hd, ih]
      simp [specIndexedDocs, specWarnings, hd]
    · rw [if_neg hd]
      by_cases hs : supportedExt e.path
      · rw [if_pos hs]
        cases hp : proc e.path with
        | error msg =>
          simp [specIndexedDocs, specWarnings, hd, hs, hp, ih]
        | ok doc =>
          simp [specIndexedDocs, specWarnings, hd, hs, hp, ih]
      · rw [if_neg hs]
        simp [specIndexedDocs, specWarnings, hd, hs, ih]

/-- C9: batch ingestion never fails as a whole — for every walk and every
per-file outcome, `indexWalk` returns exactly the documents of the
supported files that processed successfully (each also appended to the
store) together with one warning per supported file that failed;
directories and files with unsupported extensions contribute nothing. -/
theorem C9_ingestion_batch_survives_failures
    (proc : List Char → Except (List Char) Document)
    (entries : List WalkEntry) (store : List Document) :
    indexWalk proc entries [] [] store =
      (specIndexedDocs proc entries, specWarnings proc entries,
        store ++ specIndexedDocs proc entries) := by
  rw [indexWalk_acc proc entries [] [] store]
  simp

end IntelliOps
